import Mathlib

/-
Shallow embedding of the creastat/assistant-widget core:
the ChatService protocol dispatcher (src/core/services/ChatService.ts),
the ChatStore (src/core/store/index.ts), the VAD capture pipeline and the
AudioPlaybackManager (src/core/utils/audio.ts), and the VoiceService
(src/core/services/VoiceService.ts).

Modelling conventions:
- JavaScript string fields read as `payload?.x || ''` are embedded as plain
  `String` with `""` standing for an absent/empty field; the JS `||` fallback
  on strings is `jsOr`, on numbers `jsOrNat` (0 is falsy in JS).
- `Date.now()` is passed to each handler as an explicit `now : Nat` argument.
- Message ids: the repository's `generateId` (src/core/utils, not included
  under src/) is, per the spec, a fresh identity unique within the session;
  it is embedded as a `nextId` counter on the service state.
- The store's `setState`/`notify` pair is synchronous, so each store method
  is a pure function on `ChatState`.
-/

namespace AssistantWidget

/-- JavaScript `a || b` on strings: empty string is falsy. -/
def jsOr (v d : String) : String := if v = "" then d else v

/-- JavaScript String.prototype.trim, embedded as whitespace trimming over
the string's character list (computable by structural recursion). -/
def jsTrim (s : String) : String :=
  String.mk
    (((s.data.dropWhile Char.isWhitespace).reverse.dropWhile
      Char.isWhitespace).reverse)

/-- JavaScript `a || b` on numbers: 0 is falsy. -/
def jsOrNat (v d : Nat) : Nat := if v = 0 then d else v

/-- MessageRole from src/core/types/index.ts. -/
inductive Role where
  | user
  | assistant
  | system
deriving DecidableEq, Repr

/-- MessageType from src/core/types/index.ts. -/
inductive MType where
  | text
  | audio
  | control
  | brk
  | error
  | status
deriving DecidableEq, Repr

/-- Open-ended metadata map of a Message, restricted to the keys the core
actually reads or writes; an absent key is the default field value
(JS truthiness: absent = falsy). -/
structure Metadata where
  finalized : Bool := false
  target : String := ""
  status : String := ""
  details : String := ""
  messageType : String := ""
  localized : Bool := false
deriving DecidableEq, Repr

/-- Message from src/core/types/index.ts. -/
structure Message where
  id : Nat
  role : Role
  content : String
  timestamp : Nat
  mtype : MType
  metadata : Metadata := {}
deriving DecidableEq, Repr

/-- ChatState from src/core/types/index.ts, held by ChatStore. -/
structure ChatState where
  messages : List Message := []
  isConnected : Bool := false
  isConnecting : Bool := false
  isTyping : Bool := false
  isRecording : Bool := false
  isSpeaking : Bool := false
  ttsEnabled : Bool := false
  error : Option String := none
deriving DecidableEq, Repr

namespace ChatState

/-- ChatStore.addMessage. -/
def addMessage (s : ChatState) (m : Message) : ChatState :=
  { s with messages := s.messages ++ [m] }

/-- ChatStore.updateMessage. -/
def updateMessage (s : ChatState) (id : Nat) (content : String) : ChatState :=
  { s with messages := s.messages.map fun m =>
      if m.id = id then { m with content := content } else m }

/-- ChatStore.updateMessageDetails, restricted to the fields the status
handler actually passes (content, timestamp, metadata). -/
def updateMessageDetails (s : ChatState) (id : Nat) (content : String)
    (timestamp : Nat) (metadata : Metadata) : ChatState :=
  { s with messages := s.messages.map fun m =>
      if m.id = id then
        { m with content := content, timestamp := timestamp, metadata := metadata }
      else m }

/-- ChatStore.clearMessages. -/
def clearMessages (s : ChatState) : ChatState :=
  { s with messages := [] }

/-- ChatStore.removeStatusMessages (the `hasStatus` guard only skips the
notify; it is kept for fidelity). -/
def removeStatusMessages (s : ChatState) : ChatState :=
  if s.messages.any (fun m => m.mtype = MType.status) then
    { s with messages := s.messages.filter (fun m => ¬ m.mtype = MType.status) }
  else s

/-- ChatStore.setConnected. -/
def setConnected (s : ChatState) (connected : Bool) : ChatState :=
  { s with isConnected := connected, isConnecting := false,
           error := if connected then none else s.error }

/-- ChatStore.setConnecting. -/
def setConnecting (s : ChatState) (connecting : Bool) : ChatState :=
  { s with isConnecting := connecting }

/-- ChatStore.setTyping. -/
def setTyping (s : ChatState) (typing : Bool) : ChatState :=
  { s with isTyping := typing }

/-- ChatStore.setError. -/
def setError (s : ChatState) (e : Option String) : ChatState :=
  { s with error := e, isConnected := false, isConnecting := false }

/-- ChatStore.setTtsEnabled. -/
def setTtsEnabled (s : ChatState) (enabled : Bool) : ChatState :=
  { s with ttsEnabled := enabled }

end ChatState

/-- ChatConfig fields the connection state machine reads (after the
constructor merged in the defaults reconnect=true, reconnectInterval=3000,
maxReconnectAttempts=5). -/
structure Config where
  reconnect : Bool := true
  reconnectInterval : Nat := 3000
  maxReconnectAttempts : Nat := 5
deriving DecidableEq, Repr

/-- ChatEvent emitted through the eventHandler; `reconnectScheduled` is the
trace marker for each `setTimeout` scheduled by attemptReconnect. -/
inductive ChatEvent where
  | connected
  | disconnected
  | connecting
  | typingStart
  | typingEnd
  | errorEv (msg : String)
  | recordingStart
  | recordingStop
  | reconnectScheduled
deriving DecidableEq, Repr

/-- ChatService private state: store plus currentMessageId, jwt,
reconnectAttempts, reconnectTimeout (whether a timer is pending), the
fresh-id counter standing for generateId, and the trace of emitted events. -/
structure Svc where
  config : Config := {}
  store : ChatState := {}
  currentMessageId : Option Nat := none
  jwt : Option String := none
  reconnectAttempts : Nat := 0
  reconnectTimeout : Bool := false
  nextId : Nat := 0
  events : List ChatEvent := []
deriving DecidableEq, Repr

/-- Payload of a stream.stt frame. -/
structure SttPayload where
  text : String := ""
  is_final : Bool := false
deriving DecidableEq, Repr

/-- Payload of a stream.llm frame, with the Date.now() observed when the
frame is handled. -/
structure LlmFrame where
  delta : String := ""
  content : String := ""
  time : Nat := 0
deriving DecidableEq, Repr

/-- Payload of a status frame. -/
structure StatusPayload where
  message : String := ""
  status : String := ""
  target : String := ""
  details : String := ""
deriving DecidableEq, Repr

/-- Payload of a service.message frame. -/
structure ServicePayload where
  content : String := ""
  messageType : String := ""
  localized : Bool := false
  target : String := ""
deriving DecidableEq, Repr

/-- Payload of an error frame (the handler reads only `message`; `target`
is carried on the wire but ignored by handleErrorMessage). -/
structure ErrorPayload where
  message : String := ""
  target : String := ""
deriving DecidableEq, Repr

namespace Svc

/-- Creation of a new user transcript turn (both arms of
handleSttMessage create the same shape, differing only in `finalized`). -/
def sttNewTurn (text : String) (final : Bool) (now : Nat) (s : Svc) : Svc :=
  let m : Message :=
    { id := s.nextId, role := Role.user, content := text, timestamp := now,
      mtype := MType.text, metadata := { finalized := final } }
  { s with store := s.store.addMessage m, nextId := s.nextId + 1 }

/-- ChatService.handleSttMessage. The final-transcript merge branch calls
`store.updateMessage` and then assigns the finalized-marking map to
`this.store.getState().messages`; `getState()` returns a shallow copy of the
state, so that assignment mutates the copy and leaves the store unchanged —
it is embedded as the no-op it is. -/
def handleSttMessage (p : SttPayload) (now : Nat) (s : Svc) : Svc :=
  let text := p.text
  if jsTrim text = "" then s
  else
    match s.store.messages.getLast? with
    | some lastMsg =>
        if lastMsg.role = Role.user ∧ lastMsg.mtype = MType.text ∧
            lastMsg.metadata.finalized = false then
          -- update existing interim message in place; on a final transcript
          -- the finalized write is the no-op described above
          { s with store := s.store.updateMessage lastMsg.id text }
        else
          sttNewTurn text p.is_final now s
    | none =>
        sttNewTurn text p.is_final now s

/-- Branch of handleLlmMessage that opens a new assistant turn seeded with
`delta || content`, marks it current, and raises typing-start. -/
def llmNewTurn (f : LlmFrame) (s : Svc) : Svc :=
  let initialContent := jsOr f.delta f.content
  let messageId := s.nextId
  let m : Message :=
    { id := messageId, role := Role.assistant, content := initialContent,
      timestamp := f.time, mtype := MType.text }
  { s with
    store := ((s.store.removeStatusMessages).addMessage m).setTyping true,
    currentMessageId := some messageId,
    nextId := s.nextId + 1,
    events := s.events ++ [ChatEvent.typingStart] }

/-- Branch of handleLlmMessage that appends the delta to the currently open
turn (looked up by currentMessageId in the snapshot of messages). -/
def llmAppendCurrent (delta : String) (mid : Nat) (s : Svc) : Svc :=
  match s.store.messages.find? (fun m => m.id = mid) with
  | some lastMessage =>
      { s with store := s.store.updateMessage mid (lastMessage.content ++ delta) }
  | none => s

/-- ChatService.handleLlmMessage. -/
def handleLlmMessage (f : LlmFrame) (s : Svc) : Svc :=
  match s.store.messages.getLast? with
  | some lastMsg =>
      if lastMsg.role = Role.assistant ∧ ¬ lastMsg.mtype = MType.status ∧
          s.currentMessageId = none then
        -- append delta to the (possibly closed) trailing assistant message
        let st := (s.store.removeStatusMessages).updateMessage lastMsg.id
        { s with store := st (lastMsg.content ++ f.delta) }
      else
        match s.currentMessageId with
        | none => llmNewTurn f s
        | some mid => llmAppendCurrent f.delta mid s
  | none =>
      match s.currentMessageId with
      | none => llmNewTurn f s
      | some mid => llmAppendCurrent f.delta mid s

/-- ChatService.handleResponseStart. -/
def handleResponseStart (s : Svc) : Svc :=
  { s with store := s.store.removeStatusMessages }

/-- ChatService.handleResponseEnd. -/
def handleResponseEnd (s : Svc) : Svc :=
  let s :=
    match s.currentMessageId with
    | some _ =>
        { s with store := s.store.setTyping false,
                 currentMessageId := none,
                 events := s.events ++ [ChatEvent.typingEnd] }
    | none => s
  if ¬ s.store.ttsEnabled then
    { s with store := s.store.removeStatusMessages }
  else s

/-- ChatService.handleErrorMessage; the payload target is never read. -/
def handleErrorMessage (p : ErrorPayload) (now : Nat) (s : Svc) : Svc :=
  let errorMsg := jsOr p.message "An error occurred"
  let s := { s with store := s.store.removeStatusMessages }
  let s :=
    match s.currentMessageId with
    | some _ =>
        { s with store := s.store.setTyping false,
                 currentMessageId := none,
                 events := s.events ++ [ChatEvent.typingEnd] }
    | none => s
  let s :=
    { s with
      store := s.store.addMessage
        { id := s.nextId, role := Role.assistant, content := errorMsg,
          timestamp := now, mtype := MType.error },
      nextId := s.nextId + 1 }
  { s with store := s.store.setError (some errorMsg),
           events := s.events ++ [ChatEvent.errorEv errorMsg] }

/-- Creation branch of handleStatusMessage (shared by the no-last-message
and target-mismatch paths). -/
def statusNewTurn (dataId : Option Nat) (p : StatusPayload)
    (dataTs : Nat) (now : Nat) (s : Svc) : Svc :=
  let target := jsOr p.target "bot"
  let role := if target = "user" then Role.user else Role.assistant
  let mid := match dataId with | some i => i | none => s.nextId
  let nid := match dataId with | some _ => s.nextId | none => s.nextId + 1
  let m : Message :=
    { id := mid, role := role,
      content := jsOr p.message (jsOr p.status "Status update"),
      timestamp := jsOrNat dataTs now, mtype := MType.status,
      metadata := { status := p.status, target := p.target,
                    details := p.details } }
  { s with store := s.store.addMessage m, nextId := nid }

/-- ChatService.handleStatusMessage; `dataId` and `dataTs` are the optional
frame-level `data.id` and `data.timestamp` (0 standing for an absent
timestamp, which is falsy in JS). Note the update branch is guarded by a
comparison of the stored raw `metadata.target` with the DEFAULTED incoming
target, while the create branch stores the raw `payload.target`. -/
def handleStatusMessage (dataId : Option Nat) (p : StatusPayload)
    (dataTs : Nat) (now : Nat) (s : Svc) : Svc :=
  let target := jsOr p.target "bot"
  match s.store.messages.getLast? with
  | some lastMsg =>
      if lastMsg.mtype = MType.status ∧ lastMsg.metadata.target = target then
        let newMeta : Metadata :=
          { lastMsg.metadata with
              status := p.status, target := p.target, details := p.details }
        let content := jsOr p.message (jsOr p.status "Status update")
        let st := s.store.updateMessageDetails lastMsg.id content
        { s with store := st (jsOrNat dataTs now) newMeta }
      else
        statusNewTurn dataId p dataTs now s
  | none =>
      statusNewTurn dataId p dataTs now s

/-- ChatService.handleServiceMessage. -/
def handleServiceMessage (dataId : Option Nat) (p : ServicePayload)
    (dataTs : Nat) (now : Nat) (s : Svc) : Svc :=
  let s := { s with store := s.store.removeStatusMessages }
  let target := jsOr p.target "bot"
  let role := if target = "user" then Role.user else Role.assistant
  let (mid, nid) :=
    match dataId with
    | some i => (i, s.nextId)
    | none => (s.nextId, s.nextId + 1)
  { s with
    store := s.store.addMessage
      { id := mid, role := role,
        content := jsOr p.content "Service notification",
        timestamp := jsOrNat dataTs now, mtype := MType.error,
        metadata := { messageType := p.messageType, localized := p.localized,
                      target := target } },
    nextId := nid }

/-- ChatService.handleOpen. -/
def handleOpen (s : Svc) : Svc :=
  { s with reconnectAttempts := 0,
           store := s.store.setConnected true,
           events := s.events ++ [ChatEvent.connected] }

/-- ChatService.disconnect: cancel any pending reconnect timer, close the
socket with code 1000, mark disconnected. -/
def disconnect (s : Svc) : Svc :=
  { s with reconnectTimeout := false,
           store := s.store.setConnected false,
           events := s.events ++ [ChatEvent.disconnected] }

/-- ChatService.attemptReconnect: increment the counter and schedule one
reconnect timer. -/
def attemptReconnect (s : Svc) : Svc :=
  { s with reconnectAttempts := s.reconnectAttempts + 1,
           reconnectTimeout := true,
           events := s.events ++ [ChatEvent.reconnectScheduled] }

/-- ChatService.handleClose, taking the close code. -/
def handleClose (code : Nat) (s : Svc) : Svc :=
  let s := if code = 4401 then { s with jwt := none } else s
  let s := { s with store := s.store.setConnected false,
                    events := s.events ++ [ChatEvent.disconnected] }
  if s.config.reconnect = true ∧
      s.reconnectAttempts < jsOrNat s.config.maxReconnectAttempts 5 ∧
      ¬ code = 1000 then
    attemptReconnect s
  else s

end Svc

/-
Audio capture VAD (src/core/utils/audio.ts, startAudioRecording).
Samples are embedded as exact rationals (the JS floats' values); the
float-to-int16 conversion and the RMS energy are computed exactly. Since
`Math.sqrt` is monotone on nonnegatives, the source comparison
`sqrt(sum/len) > 0.05` is embedded as the equivalent comparison of the mean
square against 0.05^2 = 1/400, keeping every definition executable.
-/

/-- RMS threshold squared: SPEECH_THRESHOLD = 0.05, squared. -/
def SPEECH_THRESHOLD_SQ : ℚ := 1/400

/-- Milliseconds to wait before declaring silence. -/
def SILENCE_DURATION : Nat := 1000

/-- Consecutive above-threshold batches required to trigger speech. -/
def REQUIRED_SPEECH_CHUNKS : Nat := 2

/-- VAD state captured by the closure variables isSpeaking,
silenceStartTime (0 = unset, as in the source) and
consecutiveSpeechChunks. -/
structure VadState where
  isSpeaking : Bool
  silenceStartTime : Nat
  consecutiveSpeechChunks : Nat
deriving DecidableEq, Repr

/-- Callback events a VAD batch step can emit, in order. -/
inductive VadEvent where
  | speechStart
  | audioData
  | silence
deriving DecidableEq, Repr

/-- Worklet-path float-to-int16 conversion:
`t = max(-1, min(1, s)); t < 0 ? 32768*t : 32767*t` stored into an
Int16Array (ECMAScript ToInt16 truncates toward zero; the clamp keeps the
value in int16 range so no wrapping occurs). -/
def quantizeSample (s : ℚ) : Int :=
  let t := max (-1 : ℚ) (min 1 s)
  if t < 0 then Int.ceil (32768 * t) else Int.floor (32767 * t)

/-- Worklet-path mean square energy: RMS is computed over the
int16-quantized samples normalized by 32768 (calculateRMS in the worklet
branch). An empty batch yields 0/0 = 0 in ℚ; in JS it yields NaN, and both
classify as not-above-threshold. -/
def workletMeanSquare (samples : List ℚ) : ℚ :=
  let pcm := samples.map quantizeSample
  let sum := pcm.foldl (fun acc v => acc + ((v : ℚ) / 32768) ^ 2) 0
  sum / (pcm.length : ℚ)

/-- Fallback-path mean square energy: RMS is computed directly over the raw
float samples (calculateRMS in the ScriptProcessorNode branch). -/
def fallbackMeanSquare (samples : List ℚ) : ℚ :=
  let sum := samples.foldl (fun acc v => acc + v * v) 0
  sum / (samples.length : ℚ)

/-- Hysteresis step of the worklet-path VAD (workletNode.port.onmessage,
acting once per accumulated batch), parameterized by the batch mean-square
energy `ms` and the current time `now`. Returns the new closure state and
the callback events fired, in order. -/
def workletVadCore (ms : ℚ) (now : Nat) (st : VadState) : VadState × List VadEvent :=
  if SPEECH_THRESHOLD_SQ < ms then
    let c := st.consecutiveSpeechChunks + 1
    if REQUIRED_SPEECH_CHUNKS ≤ c then
      if st.isSpeaking = false then
        (⟨true, 0, c⟩, [VadEvent.speechStart, VadEvent.audioData])
      else
        (⟨st.isSpeaking, 0, c⟩, [VadEvent.audioData])
    else if st.isSpeaking then
      (⟨st.isSpeaking, 0, c⟩, [VadEvent.audioData])
    else
      (⟨st.isSpeaking, st.silenceStartTime, c⟩, [])
  else
    if st.isSpeaking then
      if st.silenceStartTime = 0 then
        (⟨st.isSpeaking, now, 0⟩, [])
      else if SILENCE_DURATION < now - st.silenceStartTime then
        (⟨false, 0, 0⟩, [VadEvent.silence])
      else
        (⟨st.isSpeaking, st.silenceStartTime, 0⟩, [VadEvent.audioData])
    else
      (⟨st.isSpeaking, st.silenceStartTime, 0⟩, [])

/-- Hysteresis step of the ScriptProcessorNode fallback VAD
(processorNode.onaudioprocess), parameterized the same way. The source
duplicates the logic textually; it is embedded as its own definition so the
two can be compared. -/
def fallbackVadCore (ms : ℚ) (now : Nat) (st : VadState) : VadState × List VadEvent :=
  if SPEECH_THRESHOLD_SQ < ms then
    let c := st.consecutiveSpeechChunks + 1
    if REQUIRED_SPEECH_CHUNKS ≤ c then
      if st.isSpeaking = false then
        (⟨true, 0, c⟩, [VadEvent.speechStart, VadEvent.audioData])
      else
        (⟨st.isSpeaking, 0, c⟩, [VadEvent.audioData])
    else if st.isSpeaking then
      (⟨st.isSpeaking, 0, c⟩, [VadEvent.audioData])
    else
      (⟨st.isSpeaking, st.silenceStartTime, c⟩, [])
  else
    if st.isSpeaking then
      if st.silenceStartTime = 0 then
        (⟨st.isSpeaking, now, 0⟩, [])
      else if SILENCE_DURATION < now - st.silenceStartTime then
        (⟨false, 0, 0⟩, [VadEvent.silence])
      else
        (⟨st.isSpeaking, st.silenceStartTime, 0⟩, [VadEvent.audioData])
    else
      (⟨st.isSpeaking, st.silenceStartTime, 0⟩, [])

/-- Per-batch step of the worklet path on raw samples: quantized RMS, then
the hysteresis step. -/
def workletBatchStep (samples : List ℚ) (now : Nat) (st : VadState) :
    VadState × List VadEvent :=
  workletVadCore (workletMeanSquare samples) now st

/-- Per-batch step of the fallback path on raw samples: float RMS, then the
hysteresis step. -/
def fallbackBatchStep (samples : List ℚ) (now : Nat) (st : VadState) :
    VadState × List VadEvent :=
  fallbackVadCore (fallbackMeanSquare samples) now st

/-- Run of the worklet VAD over a sequence of (mean-square, time) batches,
concatenating the emitted events. -/
def workletRun (st : VadState) : List (ℚ × Nat) → VadState × List VadEvent
  | [] => (st, [])
  | (ms, t) :: rest =>
      let step := workletVadCore ms t st
      let tail := workletRun step.1 rest
      (tail.1, step.2 ++ tail.2)

/-
Audio playback (src/core/utils/audio.ts, AudioPlaybackManager) and the
VoiceService TTS gate (src/core/services/VoiceService.ts).
Buffers are abstract (Nat). Playback of a buffer is modelled up to
`source.start(0)`: `playNext` dequeues, raises playback-started when not
already playing, and installs the buffer as the current source (decoding is
taken to succeed, the raw-PCM path). `sourceStopped` records the
`currentSource.stop()` call in stopTTS.
-/

/-- Playback notifications, in emission order. -/
inductive PlayEvent where
  | started
  | ended
  | sourceStopped
deriving DecidableEq, Repr

/-- AudioPlaybackManager state. -/
structure Playback where
  audioQueue : List Nat := []
  isPlaying : Bool := false
  currentSource : Option Nat := none
  currentInteractionId : Option String := none
  events : List PlayEvent := []
deriving DecidableEq, Repr

namespace Playback

/-- AudioPlaybackManager.stopTTS: stop the in-flight source if any, empty
the queue, clear the playing flag and interaction identity, and fire the
playback-ended callback unconditionally. -/
def stopTTS (p : Playback) : Playback :=
  let p :=
    match p.currentSource with
    | some _ => { p with currentSource := none,
                         events := p.events ++ [PlayEvent.sourceStopped] }
    | none => p
  { p with audioQueue := [], isPlaying := false, currentInteractionId := none,
           events := p.events ++ [PlayEvent.ended] }

/-- AudioPlaybackManager.playNext, up to source.start(0). With an empty
queue it resets the playing flag and interaction identity and fires
playback-ended; otherwise it dequeues, fires playback-started exactly when
not already playing, and installs the dequeued buffer as current source. -/
def playNext (p : Playback) : Playback :=
  match p.audioQueue with
  | [] =>
      { p with isPlaying := false, currentInteractionId := none,
               events := p.events ++ [PlayEvent.ended] }
  | b :: rest =>
      let p := { p with audioQueue := rest }
      let p :=
        if p.isPlaying = false then
          { p with isPlaying := true, events := p.events ++ [PlayEvent.started] }
        else p
      { p with currentSource := some b }

/-- AudioPlaybackManager.playAudioChunk: a buffer tagged with an interaction
identity different from the current one triggers barge-in (stopTTS, clear
queue, adopt the new identity); then the buffer is enqueued and playback is
kicked off if idle. -/
def playAudioChunk (b : Nat) (interactionId : Option String) (p : Playback) :
    Playback :=
  let p :=
    match interactionId with
    | some iid =>
        if ¬ p.currentInteractionId = some iid then
          let p := p.stopTTS
          { p with audioQueue := [], currentInteractionId := some iid }
        else p
    | none => p
  let p := { p with audioQueue := p.audioQueue ++ [b] }
  if p.isPlaying = false then p.playNext else p

end Playback

/-- VoiceService state relevant to the TTS gate. -/
structure VoiceSvc where
  ttsEnabled : Bool := false
  playback : Playback := {}
deriving DecidableEq, Repr

/-- VoiceService.setTtsEnabled: disabling TTS stops any ongoing playback. -/
def VoiceSvc.setTtsEnabled (enabled : Bool) (v : VoiceSvc) : VoiceSvc :=
  let v := { v with ttsEnabled := enabled }
  if enabled = false then { v with playback := v.playback.stopTTS } else v

/-- Count of reconnect schedulings (setTimeout calls) in an event trace. -/
def countSched (evs : List ChatEvent) : Nat :=
  evs.count ChatEvent.reconnectScheduled

/-- Sample value slightly above the 0.05 speech threshold as a raw float
(16385/327680 = 0.0500030...), whose int16 quantization 1638 normalizes to
1638/32768 = 0.0499877... — below the threshold. -/
def nearThresholdSample : ℚ := 16385 / 327680

/-- Concatenation of the delta fields of a run of stream.llm frames. -/
def deltasConcat : List LlmFrame → String
  | [] => ""
  | f :: fs => f.delta ++ deltasConcat fs

/-- Decidable check that the trailing message of the store, if any, is not
an assistant non-status turn (the shape handleLlmMessage appends to in
place). -/
def lastNotOpenAssistant (msgs : List Message) : Bool :=
  match msgs.getLast? with
  | none => true
  | some m => decide ¬ (m.role = Role.assistant ∧ ¬ m.mtype = MType.status)

/-- Decidable check that every message id in the store is below the
fresh-id counter (the session invariant of the generateId embedding). -/
def idsBelow (msgs : List Message) (n : Nat) : Bool :=
  msgs.all (fun m => m.id < n)

/-- Concrete fixture: a live status turn for target bot. -/
def statusTurnFixture : Message :=
  { id := 0, role := Role.assistant, content := "t", timestamp := 1,
    mtype := MType.status, metadata := { target := "bot" } }

/-- Concrete fixture: a service state whose only stored turn is the live
status turn for target bot. -/
def statusSvcFixture : Svc :=
  { store := { messages := [statusTurnFixture] } }

/-- Concrete fixture: a previously closed assistant text turn. -/
def closedAssistantFixture : Message :=
  { id := 0, role := Role.assistant, content := "hi", timestamp := 0,
    mtype := MType.text }

/-- Concrete fixture: a service state whose trailing turn is the closed
assistant turn and whose response stream is not open. -/
def closedAssistantSvcFixture : Svc :=
  { store := { messages := [closedAssistantFixture] }, nextId := 1 }

/-
Helper lemmas.
-/

theorem removeStatus_eq (s : ChatState) :
    s.removeStatusMessages =
      { s with messages := s.messages.filter (fun m => ¬ m.mtype = MType.status) } := by
  unfold ChatState.removeStatusMessages
  split
  · rfl
  next h =>
    have hfix : s.messages.filter (fun m => ¬ m.mtype = MType.status) = s.messages := by
      apply List.filter_eq_self.mpr
      intro m hm
      by_contra hc
      apply h
      apply List.any_eq_true.mpr
      refine ⟨m, hm, ?_⟩
      revert hc
      simp
    rw [hfix]

/-
C6 — explicit disconnect versus the cached credential and attempt counter.
-/

/-- C6 counterexample: disconnect() neither clears the cached JWT nor
resets the reconnect attempt counter — from a state holding a cached
credential and three used attempts, both survive the disconnect, refuting
the claim that disconnect clears the credential and zeroes the counter. -/
theorem c6_counterexample :
    (Svc.disconnect { jwt := some "tok", reconnectAttempts := 3 }).jwt = some "tok" ∧
    (Svc.disconnect { jwt := some "tok", reconnectAttempts := 3 }).reconnectAttempts = 3 :=
  ⟨rfl, rfl⟩

/-- C6 (amended): disconnect() cancels any pending reconnect timer and marks
the session disconnected, but retains the cached credential and the
reconnect attempt counter; the credential is cleared only by the 4401
close code, and the counter is reset only on a successful open. -/
theorem c6_disconnect_state (s : Svc) :
    (s.disconnect).jwt = s.jwt ∧
    (s.disconnect).reconnectAttempts = s.reconnectAttempts ∧
    (s.disconnect).reconnectTimeout = false ∧
    (s.disconnect).store.isConnected = false ∧
    (s.disconnect).events = s.events ++ [ChatEvent.disconnected] ∧
    (Svc.handleClose 4401 s).jwt = none ∧
    (s.handleOpen).reconnectAttempts = 0 := by
  refine ⟨rfl, rfl, rfl, rfl, rfl, ?_, rfl⟩
  unfold Svc.handleClose Svc.attemptReconnect
  split
  · dsimp only
    split <;> rfl
  · next hne => exact absurd rfl hne

/-
C10 — playback-ended notifications are not paired with playback-started.
-/

/-- C10: stopTTS fires the playback-ended callback exactly once on every
call, even when nothing is playing and the queue is empty; the first tagged
chunk of a fresh session fires playback-ended (from the barge-in branch,
since its identity differs from the initial null identity) before the
playback-started it triggers; and disabling TTS while idle fires
playback-ended with no preceding playback-started. -/
theorem c10_ended_not_paired (p : Playback) :
    (p.stopTTS).events =
      p.events ++
        (if p.currentSource.isSome then [PlayEvent.sourceStopped] else []) ++
        [PlayEvent.ended] ∧
    (Playback.playAudioChunk 7 (some "i1") {}).events =
      [PlayEvent.ended, PlayEvent.started] ∧
    (VoiceSvc.setTtsEnabled false {}).playback.events = [PlayEvent.ended] := by
  refine ⟨?_, by decide, by decide⟩
  unfold Playback.stopTTS
  cases h : p.currentSource <;> simp [h]

/-
C5 — barge-in on a new interaction identity.
-/

/-- C5: when playback for interaction A is in flight, enqueuing a buffer
tagged with a different identity B empties the prior queue, stops the
in-flight source, fires exactly one playback-ended, and then fires a fresh
playback-started as B's buffer starts playing; afterwards B's buffer is the
current source and B the tracked identity. -/
theorem c5_barge_in (p : Playback) (A B : String) (c b : Nat)
    (hA : p.currentInteractionId = some A)
    (_hplay : p.isPlaying = true)
    (hsrc : p.currentSource = some c)
    (hne : B ≠ A) :
    (p.playAudioChunk b (some B)).audioQueue = [] ∧
    (p.playAudioChunk b (some B)).isPlaying = true ∧
    (p.playAudioChunk b (some B)).currentSource = some b ∧
    (p.playAudioChunk b (some B)).currentInteractionId = some B ∧
    (p.playAudioChunk b (some B)).events =
      p.events ++ [PlayEvent.sourceStopped, PlayEvent.ended, PlayEvent.started] := by
  unfold Playback.playAudioChunk Playback.stopTTS Playback.playNext
  rw [hA, hsrc]
  simp [Ne.symm hne]

/-- C5 witness: a concrete in-flight state for interaction a interrupted by
a buffer tagged b. -/
theorem c5_witness :
    (({ audioQueue := [1, 2], isPlaying := true, currentSource := some 5,
        currentInteractionId := some "a" } : Playback).currentInteractionId = some "a") ∧
    (({ audioQueue := [1, 2], isPlaying := true, currentSource := some 5,
        currentInteractionId := some "a" } : Playback).playAudioChunk 9 (some "b")).currentSource = some 9 :=
  ⟨rfl,
    (c5_barge_in
      { audioQueue := [1, 2], isPlaying := true, currentSource := some 5,
        currentInteractionId := some "a" }
      "a" "b" 5 9 rfl rfl rfl (by decide)).2.2.1⟩

/-
C9 — primary (worklet) versus fallback (ScriptProcessorNode) VAD.
-/

/-- C9 counterexample: the two per-batch step functions are not
extensionally equal — on the same underlying one-sample batch the fallback
path classifies the batch above threshold (declaring speech from a state
one chunk short of the debounce bound) while the worklet path, whose RMS is
computed over int16-quantized samples, classifies it below threshold and
resets the consecutive-chunk counter. -/
theorem quantize_nearThreshold : quantizeSample nearThresholdSample = 1638 := by
  unfold quantizeSample nearThresholdSample
  rw [min_eq_right (by norm_num), max_eq_right (by norm_num),
    if_neg (by norm_num)]
  rw [Int.floor_eq_iff]
  constructor <;> norm_num

theorem c9_counterexample :
    workletBatchStep [nearThresholdSample] 5 ⟨false, 0, 1⟩ ≠
      fallbackBatchStep [nearThresholdSample] 5 ⟨false, 0, 1⟩ := by
  have hw : workletMeanSquare [nearThresholdSample] = ((1638 : ℚ) / 32768) ^ 2 := by
    unfold workletMeanSquare
    rw [List.map_singleton, quantize_nearThreshold]
    norm_num
  have hf : fallbackMeanSquare [nearThresholdSample] =
      (16385 / 327680 : ℚ) * (16385 / 327680) := by
    unfold fallbackMeanSquare nearThresholdSample
    norm_num
  have hcond1 : ¬ SPEECH_THRESHOLD_SQ < ((1638 : ℚ) / 32768) ^ 2 := by
    norm_num [SPEECH_THRESHOLD_SQ]
  have hcond2 : SPEECH_THRESHOLD_SQ < (16385 / 327680 : ℚ) * (16385 / 327680) := by
    norm_num [SPEECH_THRESHOLD_SQ]
  unfold workletBatchStep fallbackBatchStep
  rw [hw, hf]
  unfold workletVadCore fallbackVadCore
  rw [if_neg hcond1, if_pos hcond2]
  simp [REQUIRED_SPEECH_CHUNKS]

/-- C9 (amended): the two implementations share an identical hysteresis
state machine — given equal per-batch energy values and times they produce
identical states and event sequences — but their RMS computations differ
(int16-quantized versus raw samples), so the full per-batch step functions
over raw samples are not extensionally equal near the threshold. -/
theorem c9_hysteresis_equal (ms : ℚ) (now : Nat) (st : VadState) :
    workletVadCore ms now st = fallbackVadCore ms now st := rfl

/-
C8 — VAD hysteresis over batch energies.
-/

theorem thr_lt_one : SPEECH_THRESHOLD_SQ < 1 := by norm_num [SPEECH_THRESHOLD_SQ]

theorem zero_le_thr : (0 : ℚ) ≤ SPEECH_THRESHOLD_SQ := by norm_num [SPEECH_THRESHOLD_SQ]

theorem vad_above_first (hi : ℚ) (hhi : SPEECH_THRESHOLD_SQ < hi) (n : Nat) :
    workletVadCore hi n ⟨false, 0, 0⟩ = (⟨false, 0, 1⟩, []) := by
  unfold workletVadCore
  rw [if_pos hhi]
  rfl

theorem vad_above_second (hi : ℚ) (hhi : SPEECH_THRESHOLD_SQ < hi) (n : Nat) :
    workletVadCore hi n ⟨false, 0, 1⟩ =
      (⟨true, 0, 2⟩, [VadEvent.speechStart, VadEvent.audioData]) := by
  unfold workletVadCore
  rw [if_pos hhi]
  rfl

theorem vad_below_enters_hold (lo : ℚ) (hlo : lo ≤ SPEECH_THRESHOLD_SQ)
    (t1 c0 : Nat) : workletVadCore lo t1 ⟨true, 0, c0⟩ = (⟨true, t1, 0⟩, []) := by
  simp [workletVadCore, not_lt.mpr hlo]

theorem vad_below_hold (lo : ℚ) (hlo : lo ≤ SPEECH_THRESHOLD_SQ)
    (t1 : Nat) (ht1 : 0 < t1) (ts : List Nat)
    (hts : ∀ t ∈ ts, t - t1 ≤ SILENCE_DURATION) :
    workletRun ⟨true, t1, 0⟩ (ts.map (fun t => (lo, t))) =
      (⟨true, t1, 0⟩, ts.map (fun _ => VadEvent.audioData)) := by
  induction ts with
  | nil => rfl
  | cons t ts ih =>
      have hns : ¬ SILENCE_DURATION < t - t1 :=
        not_lt.mpr (hts t (List.mem_cons_self t ts))
      have hstep : workletVadCore lo t ⟨true, t1, 0⟩ =
          (⟨true, t1, 0⟩, [VadEvent.audioData]) := by
        simp [workletVadCore, not_lt.mpr hlo, ht1.ne', hns]
      have ih2 := ih (fun u hu => hts u (List.mem_cons_of_mem t hu))
      simp [workletRun, hstep, ih2]

theorem vad_below_fires (lo : ℚ) (hlo : lo ≤ SPEECH_THRESHOLD_SQ)
    (t1 : Nat) (ht1 : 0 < t1) (ts : List Nat) (u : Nat) (hu : u ∈ ts)
    (hgt : SILENCE_DURATION < u - t1) :
    VadEvent.silence ∈ (workletRun ⟨true, t1, 0⟩ (ts.map (fun t => (lo, t)))).2 := by
  induction ts with
  | nil => cases hu
  | cons t ts ih =>
      by_cases hc : SILENCE_DURATION < t - t1
      · have hstep : workletVadCore lo t ⟨true, t1, 0⟩ =
            (⟨false, 0, 0⟩, [VadEvent.silence]) := by
          simp [workletVadCore, not_lt.mpr hlo, ht1.ne', hc]
        simp [workletRun, hstep]
      · have hut : u ≠ t := fun he => hc (he ▸ hgt)
        have hu2 : u ∈ ts := by
          rcases List.mem_cons.mp hu with h | h
          · exact absurd h hut
          · exact h
        have hstep : workletVadCore lo t ⟨true, t1, 0⟩ =
            (⟨true, t1, 0⟩, [VadEvent.audioData]) := by
          simp [workletVadCore, not_lt.mpr hlo, ht1.ne', hc]
        simp only [List.map_cons, workletRun, hstep, List.mem_append]
        exact Or.inr (ih hu2)

theorem vad_inactive_drop (lo : ℚ) (hlo : lo ≤ SPEECH_THRESHOLD_SQ)
    (now : Nat) (st : VadState) (hst : st.isSpeaking = false) :
    workletVadCore lo now st = ({ st with consecutiveSpeechChunks := 0 }, []) := by
  simp [workletVadCore, not_lt.mpr hlo, hst]

/-- C8: the VAD hysteresis of the worklet path. (a) A single above-threshold
batch from the inactive state emits nothing (no speech-onset). (b) Two
(= REQUIRED_SPEECH_CHUNKS) consecutive above-threshold batches fire
speech-onset and start emitting audio. (c) While active, speech-onset never
re-fires, so it fires exactly once per utterance. (d) Once active and in a
below-threshold run stamped at time t1, batches within SILENCE_DURATION of
t1 never fire silence and speech stays active, while a run containing a
batch beyond SILENCE_DURATION fires silence. (e) A below-threshold batch
while inactive is dropped: no callback at all is emitted. Batch energies
are compared against the squared RMS threshold, which is equivalent to the
source comparison of the RMS against 0.05. -/
theorem c8_vad_hysteresis
    (hi lo : ℚ) (hhi : SPEECH_THRESHOLD_SQ < hi) (hlo : lo ≤ SPEECH_THRESHOLD_SQ)
    (n1 n2 : Nat) (st : VadState) (hst : st.isSpeaking = true) (r : ℚ) (nr : Nat)
    (c0 t1 : Nat) (ht1 : 0 < t1)
    (ts1 : List Nat) (hts1 : ∀ t ∈ ts1, t - t1 ≤ SILENCE_DURATION)
    (ts2 : List Nat) (u : Nat) (hu : u ∈ ts2) (hgt : SILENCE_DURATION < u - t1)
    (st2 : VadState) (hst2 : st2.isSpeaking = false) (n3 : Nat) :
    workletVadCore hi n1 ⟨false, 0, 0⟩ = (⟨false, 0, 1⟩, []) ∧
    workletRun ⟨false, 0, 0⟩ [(hi, n1), (hi, n2)] =
      (⟨true, 0, 2⟩, [VadEvent.speechStart, VadEvent.audioData]) ∧
    VadEvent.speechStart ∉ (workletVadCore r nr st).2 ∧
    VadEvent.silence ∉
      (workletRun ⟨true, 0, c0⟩ ((lo, t1) :: ts1.map (fun t => (lo, t)))).2 ∧
    (workletRun ⟨true, 0, c0⟩ ((lo, t1) :: ts1.map (fun t => (lo, t)))).1.isSpeaking = true ∧
    VadEvent.silence ∈
      (workletRun ⟨true, 0, c0⟩ ((lo, t1) :: ts2.map (fun t => (lo, t)))).2 ∧
    workletVadCore lo n3 st2 = ({ st2 with consecutiveSpeechChunks := 0 }, []) := by
  refine ⟨vad_above_first hi hhi n1, ?_, ?_, ?_, ?_, ?_,
    vad_inactive_drop lo hlo n3 st2 hst2⟩
  · simp [workletRun, vad_above_first hi hhi n1, vad_above_second hi hhi n2]
  · unfold workletVadCore
    split_ifs <;> simp_all
  · simp [workletRun, vad_below_enters_hold lo hlo t1 c0,
      vad_below_hold lo hlo t1 ht1 ts1 hts1]
  · simp [workletRun, vad_below_enters_hold lo hlo t1 c0,
      vad_below_hold lo hlo t1 ht1 ts1 hts1]
  · simp only [workletRun, vad_below_enters_hold lo hlo t1 c0, List.mem_append]
    exact Or.inr (vad_below_fires lo hlo t1 ht1 ts2 u hu hgt)

/-- C8 witness at concrete energies and times: threshold-crossing energy 1,
silent energy 0, a hold run at 400 and 900 ms after the stamp at 10, and a
silence run reaching 1200. -/
theorem c8_witness :
    SPEECH_THRESHOLD_SQ < (1 : ℚ) ∧ (0 : ℚ) ≤ SPEECH_THRESHOLD_SQ ∧
    ((⟨true, 0, 2⟩ : VadState).isSpeaking = true) ∧ 0 < 10 ∧
    (∀ t ∈ [400, 900], t - 10 ≤ SILENCE_DURATION) ∧
    1200 ∈ [1200] ∧ SILENCE_DURATION < 1200 - 10 ∧
    ((⟨false, 0, 0⟩ : VadState).isSpeaking = false) ∧
    workletVadCore 1 7 ⟨false, 0, 0⟩ = (⟨false, 0, 1⟩, []) :=
  ⟨thr_lt_one, zero_le_thr, rfl, by decide, by decide, by decide, by decide, rfl,
    (c8_vad_hysteresis 1 0 thr_lt_one zero_le_thr 7 8 ⟨true, 0, 2⟩ rfl 0 3 2 10
      (by decide) [400, 900] (by decide) [1200] 1200 (by decide) (by decide)
      ⟨false, 0, 0⟩ rfl 4).1⟩

/-
C4 — reconnect policy under successive abnormal closures.
-/

theorem handleClose_step (c : Nat) (s : Svc) (hc : c ≠ 1000)
    (hrec : s.config.reconnect = true) :
    (Svc.handleClose c s).config = s.config ∧
    (Svc.handleClose c s).reconnectAttempts =
      (if s.reconnectAttempts < jsOrNat s.config.maxReconnectAttempts 5 then
        s.reconnectAttempts + 1 else s.reconnectAttempts) ∧
    countSched (Svc.handleClose c s).events =
      countSched s.events +
        (if s.reconnectAttempts < jsOrNat s.config.maxReconnectAttempts 5 then 1
         else 0) := by
  unfold Svc.handleClose Svc.attemptReconnect
  by_cases h4 : c = 4401 <;>
    by_cases hlt : s.reconnectAttempts < jsOrNat s.config.maxReconnectAttempts 5 <;>
      simp [h4, hlt, hrec, hc, countSched, List.count_append, List.count_cons,
        List.count_nil]

theorem handleClose_run (codes : List Nat) (s : Svc)
    (hcodes : ∀ c ∈ codes, c ≠ 1000)
    (hrec : s.config.reconnect = true)
    (hle : s.reconnectAttempts ≤ jsOrNat s.config.maxReconnectAttempts 5) :
    (codes.foldl (fun t c => Svc.handleClose c t) s).config = s.config ∧
    (codes.foldl (fun t c => Svc.handleClose c t) s).reconnectAttempts =
      min (s.reconnectAttempts + codes.length)
        (jsOrNat s.config.maxReconnectAttempts 5) ∧
    countSched (codes.foldl (fun t c => Svc.handleClose c t) s).events =
      countSched s.events +
        (min (s.reconnectAttempts + codes.length)
          (jsOrNat s.config.maxReconnectAttempts 5) - s.reconnectAttempts) := by
  induction codes generalizing s with
  | nil =>
      refine ⟨rfl, by simp [min_eq_left hle], by simp [min_eq_left hle]⟩
  | cons c cs ih =>
      obtain ⟨hcfg, hatt, hcnt⟩ :=
        handleClose_step c s (hcodes c (List.mem_cons_self c cs)) hrec
      have hrec2 : (Svc.handleClose c s).config.reconnect = true := by
        rw [hcfg]; exact hrec
      have hle2 : (Svc.handleClose c s).reconnectAttempts ≤
          jsOrNat (Svc.handleClose c s).config.maxReconnectAttempts 5 := by
        rw [hcfg, hatt]
        split <;> omega
      obtain ⟨icfg, iatt, icnt⟩ := ih (Svc.handleClose c s)
        (fun d hd => hcodes d (List.mem_cons_of_mem c hd)) hrec2 hle2
      refine ⟨?_, ?_, ?_⟩
      · rw [List.foldl_cons, icfg, hcfg]
      · rw [List.foldl_cons, iatt, hcfg, hatt, List.length_cons]
        by_cases hlt : s.reconnectAttempts < jsOrNat s.config.maxReconnectAttempts 5 <;>
          simp only [hlt, if_true, if_false, reduceIte] <;> omega
      · rw [List.foldl_cons, icnt, hcnt, hcfg, hatt, List.length_cons]
        by_cases hlt : s.reconnectAttempts < jsOrNat s.config.maxReconnectAttempts 5 <;>
          simp only [hlt, if_true, if_false, reduceIte] <;> omega

/-- C4 counterexample: with maxReconnectAttempts = 0 the claim demands that
no reconnect attempt is ever scheduled, but the source reads the ceiling as
`maxReconnectAttempts || 5`, treating the falsy 0 as the default 5, so the
very first abnormal closure schedules an attempt. -/
theorem c4_counterexample :
    countSched ((Svc.handleClose 1006
      { config := { maxReconnectAttempts := 0 } }).events) = 1 := by
  decide

/-- C4 (amended): for every configuration with reconnection enabled and
maxReconnectAttempts = N for N ≥ 1 (0 is falsy in JS and is read as the
default ceiling 5), a run of N+1 successive abnormal closures schedules
exactly N reconnect attempts; each of the first N closures increments the
attempt counter by one (after k closures the counter is k), all N attempts
are already scheduled after the first N closures, and the (N+1)-th abnormal
closure schedules no further attempt. -/
theorem c4_reconnect_policy (N : Nat) (hN : 1 ≤ N) (codes : List Nat)
    (hlen : codes.length = N + 1) (hcodes : ∀ c ∈ codes, c ≠ 1000) :
    countSched ((codes.foldl (fun t c => Svc.handleClose c t)
      { config := { maxReconnectAttempts := N } }).events) = N ∧
    ((codes.foldl (fun t c => Svc.handleClose c t)
      { config := { maxReconnectAttempts := N } }).reconnectAttempts) = N ∧
    (∀ k, k ≤ N →
      ((codes.take k).foldl (fun t c => Svc.handleClose c t)
        { config := { maxReconnectAttempts := N } }).reconnectAttempts = k) ∧
    countSched (((codes.take N).foldl (fun t c => Svc.handleClose c t)
      { config := { maxReconnectAttempts := N } }).events) = N := by
  have hM : jsOrNat ({ maxReconnectAttempts := N } : Config).maxReconnectAttempts 5 = N := by
    unfold jsOrNat
    rw [if_neg (by omega : ¬ N = 0)]
  have hfull := handleClose_run codes { config := { maxReconnectAttempts := N } }
    hcodes rfl (by rw [hM]; exact Nat.zero_le N)
  rw [hM] at hfull
  have htake : ∀ k, k ≤ N + 1 →
      ((codes.take k).foldl (fun t c => Svc.handleClose c t)
        { config := { maxReconnectAttempts := N } }).reconnectAttempts = min k N ∧
      countSched (((codes.take k).foldl (fun t c => Svc.handleClose c t)
        { config := { maxReconnectAttempts := N } }).events) = min k N := by
    intro k hk
    have h := handleClose_run (codes.take k) { config := { maxReconnectAttempts := N } }
      (fun d hd => hcodes d (List.mem_of_mem_take hd)) rfl
      (by rw [hM]; exact Nat.zero_le N)
    rw [hM] at h
    have hlenk : (codes.take k).length = k := by
      rw [List.length_take, hlen]; omega
    refine ⟨?_, ?_⟩
    · rw [h.2.1, hlenk]
      simp
    · rw [h.2.2, hlenk]
      simp [countSched]
  refine ⟨?_, ?_, ?_, ?_⟩
  · rw [hfull.2.2, hlen]
    simp [countSched]
  · rw [hfull.2.1, hlen]; omega
  · intro k hk
    have := (htake k (by omega)).1
    rw [this]; omega
  · have := (htake N (by omega)).2
    rw [this]; omega

/-- C4 witness: N = 2 with three successive abnormal closures (code 1006)
schedules exactly two reconnect attempts. -/
theorem c4_witness :
    (1 ≤ 2) ∧ (([1006, 1006, 1006] : List Nat).length = 2 + 1) ∧
    (∀ c ∈ ([1006, 1006, 1006] : List Nat), c ≠ 1000) ∧
    countSched (([1006, 1006, 1006] : List Nat).foldl
      (fun t c => Svc.handleClose c t)
      { config := { maxReconnectAttempts := 2 } }).events = 2 :=
  ⟨by decide, by decide, by decide,
    (c4_reconnect_policy 2 (by decide) [1006, 1006, 1006] (by decide)
      (by decide)).1⟩

/-
C7 — error frames and service-notification frames.
-/

/-- C7 counterexample: an error frame whose payload carries target = user
still yields an error turn with role assistant — handleErrorMessage never
reads the target field, refuting the claimed role derivation for error
frames. -/
theorem c7_counterexample :
    (Svc.handleErrorMessage { message := "boom", target := "user" } 5 {}).store.messages =
      [{ id := 0, role := Role.assistant, content := "boom", timestamp := 5,
         mtype := MType.error }] := by
  rfl

/-- C7 (amended): an error frame prunes all status turns, closes any open
turn (typing cleared, current id dropped), appends an error-kind turn whose
role is always assistant regardless of the frame's target, sets the store
error and notifies subscribers with the payload; a service-notification
frame prunes all status turns and appends an error-kind turn whose role is
derived from target (user maps to user, anything else to assistant), but
leaves the open turn and the store error flag untouched and emits no
subscriber event. -/
theorem c7_error_service (s : Svc) (p : ErrorPayload) (q : ServicePayload)
    (dataId : Option Nat) (dataTs now now2 : Nat) :
    ((Svc.handleErrorMessage p now s).store.messages =
      s.store.messages.filter (fun m => ¬ m.mtype = MType.status) ++
        [{ id := s.nextId, role := Role.assistant,
           content := jsOr p.message "An error occurred",
           timestamp := now, mtype := MType.error }] ∧
     (Svc.handleErrorMessage p now s).currentMessageId = none ∧
     (Svc.handleErrorMessage p now s).store.error =
       some (jsOr p.message "An error occurred") ∧
     (Svc.handleErrorMessage p now s).store.isTyping =
       (if s.currentMessageId.isSome then false else s.store.isTyping) ∧
     (Svc.handleErrorMessage p now s).events =
       s.events ++
         (if s.currentMessageId.isSome then [ChatEvent.typingEnd] else []) ++
         [ChatEvent.errorEv (jsOr p.message "An error occurred")]) ∧
    ((Svc.handleServiceMessage dataId q dataTs now2 s).store.messages =
      s.store.messages.filter (fun m => ¬ m.mtype = MType.status) ++
        [{ id := (match dataId with | some i => i | none => s.nextId),
           role := (if jsOr q.target "bot" = "user" then Role.user
                    else Role.assistant),
           content := jsOr q.content "Service notification",
           timestamp := jsOrNat dataTs now2, mtype := MType.error,
           metadata := { messageType := q.messageType, localized := q.localized,
                         target := jsOr q.target "bot" } }] ∧
     (Svc.handleServiceMessage dataId q dataTs now2 s).currentMessageId =
       s.currentMessageId ∧
     (Svc.handleServiceMessage dataId q dataTs now2 s).store.error =
       s.store.error ∧
     (Svc.handleServiceMessage dataId q dataTs now2 s).store.isTyping =
       s.store.isTyping ∧
     (Svc.handleServiceMessage dataId q dataTs now2 s).events = s.events) := by
  constructor
  · unfold Svc.handleErrorMessage
    rw [removeStatus_eq]
    cases hcm : s.currentMessageId <;>
      simp [ChatState.addMessage, ChatState.setError, ChatState.setTyping, hcm]
  · unfold Svc.handleServiceMessage
    rw [removeStatus_eq]
    cases dataId <;> simp [ChatState.addMessage]

/-
C3 — at most one live status turn per (role, target) pair.
-/

/-- C3 counterexample: a status frame for target bot, an interim transcript
(which appends a user turn and prunes nothing), then a second status frame
for the same target leave TWO live status turns for the pair
(assistant, bot) — handleStatusMessage only inspects the trailing message,
so the intervening turn makes it append instead of update. -/
theorem c3_counterexample :
    ((Svc.handleStatusMessage none { message := "still thinking", target := "bot" } 0 3
        (Svc.handleSttMessage { text := "hi", is_final := false } 2
          (Svc.handleStatusMessage none { message := "thinking", target := "bot" } 0 1
            {}))).store.messages.filter
        (fun m => m.mtype = MType.status)).map
      (fun m => (m.role, m.metadata.target)) =
    [(Role.assistant, "bot"), (Role.assistant, "bot")] := by
  rfl

/-- C3 (amended): a status frame updates the existing status turn in place
(same number of turns, same id, no fresh id consumed, content and metadata
refreshed) exactly when that status turn is the most recent turn in the
store and its stored raw target equals the incoming frame's defaulted
target; when any other turn has intervened, a new status turn is appended
instead, so distinct live status turns for the same (role, target) pair can
coexist. -/
theorem c3_status_update_in_place (s : Svc) (dataId : Option Nat)
    (p : StatusPayload) (dataTs now : Nat) (m : Message)
    (hlast : s.store.messages.getLast? = some m)
    (hstat : m.mtype = MType.status)
    (htgt : m.metadata.target = jsOr p.target "bot") :
    (Svc.handleStatusMessage dataId p dataTs now s).store.messages.length =
      s.store.messages.length ∧
    (Svc.handleStatusMessage dataId p dataTs now s).store.messages.getLast? =
      some { m with
              content := jsOr p.message (jsOr p.status "Status update"),
              timestamp := jsOrNat dataTs now,
              metadata := { m.metadata with
                             status := p.status,
                             target := p.target,
                             details := p.details } } ∧
    (Svc.handleStatusMessage dataId p dataTs now s).nextId = s.nextId := by
  unfold Svc.handleStatusMessage
  rw [hlast]
  dsimp only
  rw [if_pos ⟨hstat, htgt⟩]
  unfold ChatState.updateMessageDetails
  refine ⟨by simp, ?_, rfl⟩
  simp only [List.getLast?_map, hlast, Option.map_some]
  simp

/-- C3 witness: a store whose trailing message is a live status turn for
target bot, updated in place by a second status frame for the same
target. -/
theorem c3_witness :
    statusSvcFixture.store.messages.getLast? = some statusTurnFixture ∧
    (Svc.handleStatusMessage none { message := "upd", target := "bot" } 0 9
      statusSvcFixture).store.messages.length =
      statusSvcFixture.store.messages.length :=
  ⟨rfl,
    (c3_status_update_in_place statusSvcFixture none
      { message := "upd", target := "bot" } 0 9 statusTurnFixture rfl rfl
      (by decide)).1⟩

/-
C2 — interim transcripts followed by a final transcript.
-/

/-- C2 evaluation at the failing input: an interim transcript hel followed
by a final transcript hello leaves exactly one user text turn whose content
is the final text — but its metadata still says finalized = false, because
the source's finalization write assigns to the copy returned by
store.getState() rather than to the store. Consequently a later final
transcript (bye) merges into the supposedly finalized turn instead of
creating a new one. -/
theorem c2_finalize_noop :
    (Svc.handleSttMessage { text := "hello", is_final := true } 2
      (Svc.handleSttMessage { text := "hel", is_final := false } 1
        {})).store.messages =
      [{ id := 0, role := Role.user, content := "hello", timestamp := 1,
         mtype := MType.text, metadata := { finalized := false } }] ∧
    (Svc.handleSttMessage { text := "bye", is_final := true } 3
      (Svc.handleSttMessage { text := "hello", is_final := true } 2
        (Svc.handleSttMessage { text := "hel", is_final := false } 1
          {}))).store.messages =
      [{ id := 0, role := Role.user, content := "bye", timestamp := 1,
         mtype := MType.text, metadata := { finalized := false } }] :=
  ⟨rfl, rfl⟩

/-
C1 — assembly of assistant delta streams into turns.
-/

theorem find_append_last (base : List Message) (turn : Message) (mid : Nat)
    (hturn : turn.id = mid) (hbase : ∀ m ∈ base, ¬ m.id = mid) :
    (base ++ [turn]).find? (fun m => m.id = mid) = some turn := by
  induction base with
  | nil => simp [hturn]
  | cons b bs ih =>
      rw [List.cons_append, List.find?_cons_of_neg]
      · exact ih (fun m hm => hbase m (List.mem_cons_of_mem b hm))
      · simp [hbase b (List.mem_cons_self b bs)]

theorem map_update_skip (base : List Message) (mid : Nat) (content : String)
    (hbase : ∀ m ∈ base, ¬ m.id = mid) :
    (base.map fun m => if m.id = mid then { m with content := content } else m) =
      base := by
  induction base with
  | nil => rfl
  | cons b bs ih =>
      rw [List.map_cons, if_neg (hbase b (List.mem_cons_self b bs)),
        ih (fun m hm => hbase m (List.mem_cons_of_mem b hm))]

theorem filter_status_idem (l : List Message) :
    ((l.filter fun m => ¬ m.mtype = MType.status).filter
      fun m => ¬ m.mtype = MType.status) =
      l.filter fun m => ¬ m.mtype = MType.status :=
  List.filter_eq_self.mpr (fun _ hm => (List.mem_filter.mp hm).2)

theorem llm_step_append (g : LlmFrame) (s : Svc) (mid : Nat)
    (base : List Message) (turn : Message)
    (hmsgs : s.store.messages = base ++ [turn])
    (hturn : turn.id = mid)
    (hcur : s.currentMessageId = some mid)
    (hbase : ∀ m ∈ base, ¬ m.id = mid) :
    Svc.handleLlmMessage g s =
      { s with store := { s.store with messages :=
          base ++ [{ turn with content := turn.content ++ g.delta }] } } := by
  unfold Svc.handleLlmMessage
  rw [hmsgs, List.getLast?_concat]
  dsimp only
  rw [if_neg (by simp [hcur]), hcur]
  dsimp only
  unfold Svc.llmAppendCurrent
  rw [hmsgs, find_append_last base turn mid hturn hbase]
  dsimp only
  unfold ChatState.updateMessage
  rw [hmsgs, List.map_append, map_update_skip base mid _ hbase]
  simp [hturn, hcur]

theorem llm_run_append (rest : List LlmFrame) (s : Svc) (mid : Nat)
    (base : List Message) (turn : Message)
    (hmsgs : s.store.messages = base ++ [turn])
    (hturn : turn.id = mid)
    (hcur : s.currentMessageId = some mid)
    (hbase : ∀ m ∈ base, ¬ m.id = mid) :
    (rest.foldl (fun t g => Svc.handleLlmMessage g t) s).store =
      { s.store with messages :=
          base ++ [{ turn with content := turn.content ++ deltasConcat rest }] } ∧
    (rest.foldl (fun t g => Svc.handleLlmMessage g t) s).currentMessageId =
      some mid ∧
    (rest.foldl (fun t g => Svc.handleLlmMessage g t) s).nextId = s.nextId ∧
    (rest.foldl (fun t g => Svc.handleLlmMessage g t) s).events = s.events := by
  induction rest generalizing s turn with
  | nil =>
      refine ⟨?_, hcur, rfl, rfl⟩
      rw [show deltasConcat [] = "" from rfl, String.append_empty, ← hmsgs]
      rfl
  | cons g gs ih =>
      have hstep := llm_step_append g s mid base turn hmsgs hturn hcur hbase
      have ih2 := ih (Svc.handleLlmMessage g s)
        { turn with content := turn.content ++ g.delta }
        (by rw [hstep]) hturn (by rw [hstep]; exact hcur)
      rw [List.foldl_cons]
      refine ⟨?_, ih2.2.1, ?_, ?_⟩
      · rw [ih2.1, hstep]
        simp [deltasConcat, String.append_assoc]
      · rw [ih2.2.2.1, hstep]
      · rw [ih2.2.2.2, hstep]

/-- C1 counterexample: when the last stored turn is a previously closed
assistant turn, a fresh delta sequence a, b between response boundaries
creates NO new assistant turn — the deltas are appended in place to the old
closed turn, whose content becomes hiab, refuting the claim that exactly
one new turn holding ab is created regardless of the trailing turn. -/
theorem c1_counterexample :
    (Svc.handleResponseEnd
      (Svc.handleLlmMessage { delta := "b", time := 2 }
        (Svc.handleLlmMessage { delta := "a", time := 1 }
          closedAssistantSvcFixture))).store.messages =
      [{ closedAssistantFixture with content := "hiab" }] :=
  rfl

/-- C1 (amended): provided the trailing stored turn is not an assistant
non-status turn (and no turn is open), a delta sequence f :: rest arriving
between response boundaries creates exactly one new assistant turn, seeded
with the first frame's delta (or its content field when the delta is empty)
and extended by the concatenation of the remaining deltas; after
response-end the turn is closed — typing cleared, no current open turn —
and exactly one typing-start/typing-end pair was emitted. When the trailing
turn IS a closed assistant turn, the deltas instead merge into it in place
(see the counterexample), which is the one exception the source forces. -/
theorem c1_stream_assembly (s : Svc) (f : LlmFrame) (rest : List LlmFrame)
    (hcur : s.currentMessageId = none)
    (hlast : lastNotOpenAssistant s.store.messages = true)
    (hids : idsBelow s.store.messages s.nextId = true) :
    (Svc.handleResponseEnd
      (rest.foldl (fun t g => Svc.handleLlmMessage g t)
        (Svc.handleLlmMessage f s))).store.messages =
      (s.store.messages.filter fun m => ¬ m.mtype = MType.status) ++
        [{ id := s.nextId, role := Role.assistant,
           content := jsOr f.delta f.content ++ deltasConcat rest,
           timestamp := f.time, mtype := MType.text }] ∧
    (Svc.handleResponseEnd
      (rest.foldl (fun t g => Svc.handleLlmMessage g t)
        (Svc.handleLlmMessage f s))).currentMessageId = none ∧
    (Svc.handleResponseEnd
      (rest.foldl (fun t g => Svc.handleLlmMessage g t)
        (Svc.handleLlmMessage f s))).store.isTyping = false ∧
    (Svc.handleResponseEnd
      (rest.foldl (fun t g => Svc.handleLlmMessage g t)
        (Svc.handleLlmMessage f s))).events =
      s.events ++ [ChatEvent.typingStart, ChatEvent.typingEnd] := by
  have hfirst : Svc.handleLlmMessage f s = Svc.llmNewTurn f s := by
    unfold Svc.handleLlmMessage
    unfold lastNotOpenAssistant at hlast
    cases hl : s.store.messages.getLast? with
    | none =>
        dsimp only
        rw [hcur]
    | some m =>
        rw [hl] at hlast
        have hm : ¬ (m.role = Role.assistant ∧ ¬ m.mtype = MType.status) :=
          of_decide_eq_true hlast
        dsimp only
        rw [if_neg (fun h => hm ⟨h.1, h.2.1⟩), hcur]
  have hnew : Svc.llmNewTurn f s =
      { s with
        store := { s.store with
          messages :=
            (s.store.messages.filter fun m => ¬ m.mtype = MType.status) ++
              [{ id := s.nextId, role := Role.assistant,
                 content := jsOr f.delta f.content,
                 timestamp := f.time, mtype := MType.text }],
          isTyping := true },
        currentMessageId := some s.nextId,
        nextId := s.nextId + 1,
        events := s.events ++ [ChatEvent.typingStart] } := by
    unfold Svc.llmNewTurn ChatState.addMessage ChatState.setTyping
    rw [removeStatus_eq]
  have hbaseF : ∀ m ∈ (s.store.messages.filter fun m => ¬ m.mtype = MType.status),
      ¬ m.id = s.nextId := by
    intro m hm
    have hmem := List.mem_of_mem_filter hm
    unfold idsBelow at hids
    have := List.all_eq_true.mp hids m hmem
    have hlt : m.id < s.nextId := of_decide_eq_true this
    omega
  obtain ⟨hst, hcur2, hnid, hev⟩ :=
    llm_run_append rest (Svc.handleLlmMessage f s) s.nextId
      (s.store.messages.filter fun m => ¬ m.mtype = MType.status)
      { id := s.nextId, role := Role.assistant,
        content := jsOr f.delta f.content,
        timestamp := f.time, mtype := MType.text }
      (by rw [hfirst, hnew]) rfl (by rw [hfirst, hnew]) hbaseF
  unfold Svc.handleResponseEnd
  rw [hcur2]
  dsimp only
  rw [hst]
  unfold ChatState.setTyping
  refine ⟨?_, ?_, ?_, ?_⟩
  · dsimp only
    split
    · rw [removeStatus_eq]
      dsimp only
      rw [List.filter_append, filter_status_idem]
      simp [hfirst, hnew]
    · simp [hfirst, hnew]
  · split <;> rfl
  · split
    · rw [removeStatus_eq]
    · rfl
  · split
    · rw [removeStatus_eq]
      dsimp only
      rw [hev, hfirst, hnew]
      simp
    · rw [hev, hfirst, hnew]
      simp

/-- C1 witness: from an empty store, the frames a then b assemble into one
assistant turn with content ab, closed after response-end. -/
theorem c1_witness :
    (({} : Svc).currentMessageId = none) ∧
    lastNotOpenAssistant ({} : Svc).store.messages = true ∧
    idsBelow ({} : Svc).store.messages ({} : Svc).nextId = true ∧
    (Svc.handleResponseEnd
      ([({ delta := "b", time := 2 } : LlmFrame)].foldl
        (fun t g => Svc.handleLlmMessage g t)
        (Svc.handleLlmMessage { delta := "a", time := 1 } {}))).store.messages =
      ((({} : Svc).store.messages.filter fun m => ¬ m.mtype = MType.status) ++
        [{ id := ({} : Svc).nextId, role := Role.assistant,
           content := jsOr ({ delta := "a", time := 1 } : LlmFrame).delta
               ({ delta := "a", time := 1 } : LlmFrame).content ++
             deltasConcat [({ delta := "b", time := 2 } : LlmFrame)],
           timestamp := ({ delta := "a", time := 1 } : LlmFrame).time,
           mtype := MType.text }]) :=
  ⟨rfl, rfl, rfl,
    (c1_stream_assembly {} { delta := "a", time := 1 }
      [{ delta := "b", time := 2 }] rfl rfl rfl).1⟩

end AssistantWidget
